import Mathlib

/-!
Verification development for the qr_code_generator repository.

The repository consists of two Python scripts, `main.py` (interactive
entry point) and `generate_qr_cli.py` (command-line entry point).  Both
hold a static table of colour themes (`THEMES`) and module-drawing
styles (`STYLES`), resolve user-chosen keys against those tables with a
fallback default, convert hex colour strings to RGB triples, and
composite an optional logo onto the rendered QR image.  QR encoding,
image rendering, file I/O and image manipulation are delegated to
external libraries and are modelled here as opaque outcomes.

Conventions of the embedding:
* Python strings are Lean `String`s (`List Char` model); the string
  helpers `strip`, `upper`, `split`, `endswith`, `lstrip` are embedded
  as structurally recursive Lean functions over `String.data` (ASCII
  behaviour, which covers every string the scripts compare against).
* Python `int(s, 16)` is embedded by `pyIntHex`, an `Option Int`-valued
  parser; a `none` result models a raised `ValueError`.  `hex_to_rgb`
  is only ever applied to slices of length at most two, for which the
  optional `0x`/`0X` prefix of Python's parser can never produce a
  successful parse, so the prefix is omitted from the model.
* Python `dict` literals keyed by strings become association lists and
  `dict.get(k, default)` becomes `dictGet`.
* Fallible Python code (exceptions) returns `Option`.
-/

namespace QrGen

/-- An RGB triple as produced by `hex_to_rgb` and stored in the theme
tables.  Python ints are unbounded and `int(s, 16)` can return negative
values for a leading minus sign, so components are `Int`. -/
abbrev RGB := Int × Int × Int

/-- A colour theme record, embedding the dictionaries in `THEMES` of
both `main.py` (lines 20-65) and `generate_qr_cli.py` (lines 25-70):
solid themes carry `name`, `fill`, `back`; gradient themes carry
`name`, `gradient = True`, `center`, `edge`, `back`.  Absent dictionary
keys are `none` / `false`. -/
structure Theme where
  name : String
  gradient : Bool := false
  fill : Option RGB := none
  center : Option RGB := none
  edge : Option RGB := none
  back : RGB
  deriving DecidableEq

/-- The six stateless module-drawing strategies imported from
`qrcode.image.styles.moduledrawers` in both scripts.  `main.py` stores
instances and `generate_qr_cli.py` stores the classes; both denote the
same strategy, which is all the model needs. -/
inductive ModuleDrawer where
  | square
  | rounded
  | circle
  | verticalBars
  | horizontalBars
  | gappedSquare
  deriving DecidableEq

/-- A style record of the `STYLES` tables: display name plus drawing
strategy (`main.py` lines 71-78, `generate_qr_cli.py` lines 76-83). -/
structure Style where
  name : String
  drawer : ModuleDrawer
  deriving DecidableEq

/-- `THEMES["1"]` in both scripts. -/
def theme_neon_purple : Theme :=
  { name := "🟣 Neon Purple", fill := some (127, 0, 255), back := (0, 0, 0) }

/-- `THEMES["2"]` in both scripts. -/
def theme_ocean_blue : Theme :=
  { name := "🔵 Ocean Blue", fill := some (0, 119, 182), back := (255, 255, 255) }

/-- `THEMES["3"]` in both scripts. -/
def theme_sunset : Theme :=
  { name := "🟠 Sunset", fill := some (255, 87, 51), back := (25, 25, 25) }

/-- `THEMES["4"]` in both scripts. -/
def theme_matrix : Theme :=
  { name := "🟢 Matrix", fill := some (0, 255, 65), back := (0, 0, 0) }

/-- `THEMES["5"]` in both scripts. -/
def theme_classic : Theme :=
  { name := "⚪ Classic", fill := some (0, 0, 0), back := (255, 255, 255) }

/-- `THEMES["6"]` in both scripts. -/
def theme_pink_dream : Theme :=
  { name := "💖 Pink Dream", fill := some (255, 20, 147), back := (255, 240, 245) }

/-- `THEMES["7"]` in both scripts. -/
def theme_gradient_ocean : Theme :=
  { name := "🌊 Gradient Ocean", gradient := true, center := some (0, 191, 255),
    edge := some (0, 0, 139), back := (255, 255, 255) }

/-- `THEMES["8"]` in both scripts. -/
def theme_gradient_fire : Theme :=
  { name := "🔥 Gradient Fire", gradient := true, center := some (255, 215, 0),
    edge := some (255, 0, 0), back := (0, 0, 0) }

/-- The `THEMES` dictionary (identical in `main.py` lines 20-65 and
`generate_qr_cli.py` lines 25-70), as an association list preserving
the insertion order of the keys. -/
def THEMES : List (String × Theme) :=
  [("1", theme_neon_purple), ("2", theme_ocean_blue), ("3", theme_sunset),
   ("4", theme_matrix), ("5", theme_classic), ("6", theme_pink_dream),
   ("7", theme_gradient_ocean), ("8", theme_gradient_fire)]

/-- `STYLES["1"]` in both scripts. -/
def style_square : Style := ⟨"■ Square (Classic)", .square⟩

/-- `STYLES["2"]` in both scripts. -/
def style_rounded : Style := ⟨"● Rounded", .rounded⟩

/-- `STYLES["3"]` in both scripts. -/
def style_circle : Style := ⟨"○ Circle", .circle⟩

/-- `STYLES["4"]` in both scripts. -/
def style_vertical_bars : Style := ⟨"║ Vertical Bars", .verticalBars⟩

/-- `STYLES["5"]` in both scripts. -/
def style_horizontal_bars : Style := ⟨"═ Horizontal Bars", .horizontalBars⟩

/-- `STYLES["6"]` in both scripts. -/
def style_gapped_square : Style := ⟨"▢ Gapped Square", .gappedSquare⟩

/-- The `STYLES` dictionary (`main.py` lines 71-78, `generate_qr_cli.py`
lines 76-83). -/
def STYLES : List (String × Style) :=
  [("1", style_square), ("2", style_rounded), ("3", style_circle),
   ("4", style_vertical_bars), ("5", style_horizontal_bars),
   ("6", style_gapped_square)]

/-- Python `dict.get(k, default)` on a string-keyed literal dictionary
embedded as an association list. -/
def dictGet {β : Type} (d : List (String × β)) (k : String) (dflt : β) : β :=
  (d.lookup k).getD dflt

/-- Python `str.strip()` with no argument: drop leading and trailing
whitespace (ASCII space, tab, CR, LF — the characters relevant to this
program's inputs). -/
def pyStrip (s : String) : String :=
  ⟨((s.data.dropWhile Char.isWhitespace).reverse.dropWhile
      Char.isWhitespace).reverse⟩

/-- Python `str.strip(chars)` with a single-character argument: drop
every leading and trailing occurrence of that character. -/
def pyStripChar (c : Char) (s : String) : String :=
  ⟨((s.data.dropWhile (· = c)).reverse.dropWhile (· = c)).reverse⟩

/-- Python `str.upper()` restricted to ASCII, which covers the digit
and letter keys this program compares (`"C"`, `"1"`…`"8"`). -/
def pyUpper (s : String) : String :=
  ⟨s.data.map Char.toUpper⟩

/-- Python `str.lstrip('#')`: drop every leading `'#'`. -/
def pyLstripHash (s : String) : List Char :=
  s.data.dropWhile (· == '#')

/-- Python `str.split(" ")` (explicit single-space separator, empty
fields kept, result never empty). -/
def pySplitSpace : List Char → List (List Char)
  | [] => [[]]
  | c :: cs =>
    if c = ' ' then
      [] :: pySplitSpace cs
    else
      match pySplitSpace cs with
      | t :: ts => (c :: t) :: ts
      | [] => [[c]]

/-- Python `str.endswith(suffix)`: suffix test on the character
sequence. -/
def pyEndsWith (s suffix : String) : Bool :=
  suffix.data.isSuffixOf s.data

/-- The value of a hexadecimal digit character, `none` when the
character is not one of `0-9`, `a-f`, `A-F`.  This is the digit
alphabet Python's `int(s, 16)` accepts (ASCII), computed from the
character code: `'0'` is 48, `'a'` is 97 and `'A'` is 65. -/
def hexVal? (c : Char) : Option Nat :=
  let n := c.toNat
  if 48 ≤ n ∧ n ≤ 57 then some (n - 48)
  else if 97 ≤ n ∧ n ≤ 102 then some (n - 87)
  else if 65 ≤ n ∧ n ≤ 70 then some (n - 55)
  else none

/-- Digit-group scanner of Python's `int(s, 16)` after the first digit:
consumes further digits, allowing a single underscore between two
digits (`1_2` parses, `1__2` and a trailing `1_` raise).  Returns the
accumulated value and the unconsumed rest; `none` models a raised
`ValueError`. -/
def parseAfterDigit (acc : Nat) : List Char → Option (Nat × List Char)
  | [] => some (acc, [])
  | c :: cs =>
    match hexVal? c with
    | some v => parseAfterDigit (16 * acc + v) cs
    | none =>
      if c = '_' then
        match cs with
        | d :: ds =>
          match hexVal? d with
          | some v => parseAfterDigit (16 * acc + v) ds
          | none => none
        | [] => none
      else
        some (acc, c :: cs)

/-- Entry into the digit-group scanner: the first character must be a
hexadecimal digit (a leading underscore raises). -/
def parseHexNum : List Char → Option (Nat × List Char)
  | [] => none
  | c :: cs =>
    match hexVal? c with
    | some v => parseAfterDigit v cs
    | none => none

/-- Python `int(s, 16)`: optional surrounding whitespace, optional
sign, then a non-empty digit group.  `none` models `ValueError`.  The
optional `0x`/`0X` prefix is omitted: `hex_to_rgb` only ever passes
slices of length ≤ 2, and on those the prefix never yields a
successful parse (`int("0x", 16)` raises), so the model agrees with
Python on every reachable argument. -/
def pyIntHex (s : String) : Option Int :=
  let l := s.data.dropWhile Char.isWhitespace
  let sl : Int × List Char :=
    match l with
    | c :: rest =>
      if c = '+' then (1, rest)
      else if c = '-' then (-1, rest)
      else (1, l)
    | [] => (1, [])
  match parseHexNum sl.2 with
  | some (v, rest) =>
    if rest.dropWhile Char.isWhitespace = [] then some (sl.1 * (v : Int))
    else none
  | none => none

/-- `hex_to_rgb` of `main.py` lines 111-114: strip leading `'#'`, then
convert the three two-character slices at offsets 0, 2, 4 with
`int(_, 16)`.  Python evaluates the slices left to right and the first
`ValueError` propagates; `Option.bind` models that. -/
def hex_to_rgb (s : String) : Option RGB :=
  let hex_color := pyLstripHash s
  (pyIntHex ⟨(hex_color.drop 0).take 2⟩).bind fun r =>
    (pyIntHex ⟨(hex_color.drop 2).take 2⟩).bind fun g =>
      (pyIntHex ⟨(hex_color.drop 4).take 2⟩).bind fun b =>
        some (r, g, b)

/-- `parse_choice` of `generate_qr_cli.py` lines 123-125: take the
field before the first space and strip it. -/
def parse_choice (choice_str : String) : String :=
  pyStrip ⟨(pySplitSpace choice_str.data).headD []⟩

/-- Theme resolution of the CLI entry point, `generate_qr_cli.py`
lines 161 and 164: `THEMES.get(parse_choice(args.theme), THEMES["5"])`. -/
def cliResolveTheme (raw : String) : Theme :=
  dictGet THEMES (parse_choice raw) theme_classic

/-- Style resolution of the CLI entry point, `generate_qr_cli.py`
lines 162 and 165: `STYLES.get(parse_choice(args.style), STYLES["1"])`. -/
def cliResolveStyle (raw : String) : Style :=
  dictGet STYLES (parse_choice raw) style_square

/-- `get_custom_colors` of `main.py` lines 185-201, with the two
`input()` results passed as arguments: empty (after strip) foreground
defaults to `"#000000"`, empty background to `"#FFFFFF"`; both are
converted with `hex_to_rgb`, whose `ValueError` (modelled by `none`)
propagates, foreground converted first. -/
def get_custom_colors (fillInput backInput : String) : Option Theme :=
  let fill_hex := pyStrip fillInput
  let fill_hex := if fill_hex = "" then "#000000" else fill_hex
  let back_hex := pyStrip backInput
  let back_hex := if back_hex = "" then "#FFFFFF" else back_hex
  (hex_to_rgb fill_hex).bind fun f =>
    (hex_to_rgb back_hex).bind fun b =>
      some { name := "🎨 Custom", fill := some f, back := b }

/-- Theme resolution of the interactive entry point, `main.py` lines
222-227: strip and uppercase the raw input; `"C"` routes to
`get_custom_colors` (which may raise, modelled by `none`); any other
key is looked up with `THEMES.get(choice, THEMES["1"])`. -/
def mainResolveTheme (raw fillInput backInput : String) : Option Theme :=
  let theme_choice := pyUpper (pyStrip raw)
  if theme_choice = "C" then get_custom_colors fillInput backInput
  else some (dictGet THEMES theme_choice theme_neon_purple)

/-- Style resolution of the interactive entry point, `main.py` lines
235-236: `STYLES.get(input(...).strip(), STYLES["1"])`. -/
def mainResolveStyle (raw : String) : Style :=
  dictGet STYLES (pyStrip raw) style_square

/-- Logo-path processing of the interactive entry point, `main.py`
lines 242-246: strip the input; empty means no logo (`None`),
otherwise strip surrounding double then single quotes. -/
def processLogoInput (raw : String) : Option String :=
  let logo_path := pyStrip raw
  if logo_path = "" then none
  else some (pyStripChar (Char.ofNat 39) (pyStripChar (Char.ofNat 34) logo_path))

/-- Output-filename processing of the interactive entry point,
`main.py` lines 251-255: strip; empty defaults to `"qr_code.png"`;
otherwise append `".png"` unless the name already ends with it. -/
def normalizeFilename (raw : String) : String :=
  let filename := pyStrip raw
  if filename = "" then "qr_code.png"
  else if pyEndsWith filename ".png" then filename
  else filename ++ ".png"

/-- The seven `input()` results consumed by `main.py`'s interactive
`main` (data, theme choice, the two custom-colour prompts — read only
when the theme choice is `"C"` — style choice, logo path, filename). -/
structure MainInputs where
  data : String
  theme_choice : String
  fill_hex : String
  back_hex : String
  style_choice : String
  logo_input : String
  filename_input : String
  deriving DecidableEq

/-- Observable outcome of one interactive run up to the point where
`generate_styled_qr` is invoked: `aborted` is the early `return` on
empty data (`main.py` lines 213-215, before any rendering),
`color_error` a `ValueError` escaping `hex_to_rgb` in the custom-colour
path, and `run` carries the arguments handed to `generate_styled_qr`
(`main.py` lines 262-268). -/
inductive MainOutcome where
  | aborted
  | color_error
  | run (data : String) (theme : Theme) (style : Style)
      (logo_path : Option String) (output_file : String)
  deriving DecidableEq

/-- The interactive `main` of `main.py` lines 204-268, as a function
of the `input()` results, up to the call of `generate_styled_qr`. -/
def mainRun (inp : MainInputs) : MainOutcome :=
  let data := pyStrip inp.data
  if data = "" then .aborted
  else
    match mainResolveTheme inp.theme_choice inp.fill_hex inp.back_hex with
    | none => .color_error
    | some theme =>
      .run data theme (mainResolveStyle inp.style_choice)
        (processLogoInput inp.logo_input)
        (normalizeFilename inp.filename_input)

/-- The output file an interactive run writes: `none` when no call to
`generate_styled_qr` (and hence no `save`) happens. -/
def writesFile : MainOutcome → Option String
  | .run _ _ _ _ output_file => some output_file
  | _ => none

/-- The logo-compositing arithmetic of `generate_styled_qr`,
`main.py` lines 160-173, as a function of the square base image's edge
length `qr_size`: `logo_size = qr_size // 4`, centering position
`pos = ((qr_size - logo_size) // 2, (qr_size - logo_size) // 2)`, white
backing of size `(logo_size + 20, logo_size + 20)` pasted at
`bg_pos = (pos[0] - 10, pos[1] - 10)` (Python ints may go negative for
tiny images, hence `Int` for `bg_pos`). -/
structure CompositeGeometry where
  logo_size : Nat
  pos : Nat × Nat
  bg_size : Nat × Nat
  bg_pos : Int × Int
  deriving DecidableEq

/-- Compute the compositing geometry from the base edge length,
following `main.py` lines 160-173 line by line. -/
def compositeGeometry (qr_size : Nat) : CompositeGeometry :=
  let logo_size := qr_size / 4
  let pos : Nat × Nat := ((qr_size - logo_size) / 2, (qr_size - logo_size) / 2)
  { logo_size := logo_size
    pos := pos
    bg_size := (logo_size + 20, logo_size + 20)
    bg_pos := ((pos.1 : Int) - 10, (pos.2 : Int) - 10) }

/-- Behaviour of the external world during the logo step of
`generate_styled_qr`: whether `os.path.exists(logo_path)` is true and
whether the `Image.open`/`convert`/`resize`/`paste` sequence succeeds
(its failure is what the `except` clause catches). -/
structure LogoEnv where
  file_exists : Bool
  logo_loads : Bool
  deriving DecidableEq

/-- Observable outcome of `generate_styled_qr`'s logo step and save,
`main.py` lines 156-182: which file is saved, whether the logo was
composited, and whether the `"Could not add logo"` warning was
printed. -/
structure QrOutcome where
  saved_file : Option String
  logo_added : Bool
  warning : Bool
  deriving DecidableEq

/-- Python truthiness of the `logo_path` argument (`None` and the
empty string are falsy). -/
def pyTruthy : Option String → Bool
  | none => false
  | some s => s ≠ ""

/-- The logo step and save of `generate_styled_qr`, `main.py` lines
156-182: the guarded block runs only when `logo_path` is truthy AND
`os.path.exists(logo_path)` holds; inside it, a load failure is caught
and only prints a warning; the save at line 181 happens in every
case. -/
def generate_styled_qr (output_file : String) (logo_path : Option String)
    (env : LogoEnv) : QrOutcome :=
  if pyTruthy logo_path && env.file_exists then
    if env.logo_loads then
      { saved_file := some output_file, logo_added := true, warning := false }
    else
      { saved_file := some output_file, logo_added := false, warning := true }
  else
    { saved_file := some output_file, logo_added := false, warning := false }

/-! ### Helper lemmas -/

/-- A character with a hex value is distinct from any character
without one. -/
theorem hexVal?_ne {c x : Char} {u : Nat} (h : hexVal? c = some u)
    (hx : hexVal? x = none) : c ≠ x := by
  intro e
  rw [e, hx] at h
  cases h

/-- Hexadecimal digit characters are not whitespace. -/
theorem hexChar_not_ws {c : Char} {u : Nat} (h : hexVal? c = some u) :
    c.isWhitespace = false := by
  have h1 : c ≠ ' ' := hexVal?_ne h rfl
  have h2 : c ≠ '\t' := hexVal?_ne h rfl
  have h3 : c ≠ '\r' := hexVal?_ne h rfl
  have h4 : c ≠ '\n' := hexVal?_ne h rfl
  simp [Char.isWhitespace, h1, h2, h3, h4]

/-- `pyIntHex` on a two-character string of hexadecimal digits returns
the two-digit value. -/
theorem pyIntHex_two {c d : Char} {u v : Nat} (hc : hexVal? c = some u)
    (hd : hexVal? d = some v) :
    pyIntHex ⟨[c, d]⟩ = some ((16 * u + v : Nat) : Int) := by
  have hcws := hexChar_not_ws hc
  have hdws := hexChar_not_ws hd
  have hcp : c ≠ '+' := hexVal?_ne hc rfl
  have hcm : c ≠ '-' := hexVal?_ne hc rfl
  simp [pyIntHex, List.dropWhile_cons, hcws, hdws, hcp, hcm,
    parseHexNum, hc, parseAfterDigit, hd]

/-- `dictGet` returns the default or a value stored in the table. -/
theorem dictGet_mem_or {β : Type} (l : List (String × β)) (k : String) (d : β) :
    dictGet l k d = d ∨ dictGet l k d ∈ l.map Prod.snd := by
  induction l with
  | nil => exact Or.inl rfl
  | cons p tl ih =>
    obtain ⟨a, b⟩ := p
    by_cases h : (k == a) = true
    · right
      simp [dictGet, List.lookup_cons, h]
    · have h' : (k == a) = false := by simpa using h
      have heq : dictGet ((a, b) :: tl) k d = dictGet tl k d := by
        simp [dictGet, List.lookup_cons, h']
      rw [heq]
      rcases ih with h2 | h2
      · exact Or.inl h2
      · exact Or.inr (by simp; right; simpa using h2)

/-- A `hex_to_rgb` argument whose `'#'`-stripped form is shorter than
five characters makes the third slice empty, so the conversion
raises. -/
theorem hex_to_rgb_short {s : String} (h : (pyLstripHash s).length < 5) :
    hex_to_rgb s = none := by
  have h3 : ((pyLstripHash s).drop 4).take 2 = ([] : List Char) := by
    rw [List.drop_eq_nil_of_le (by omega)]
    rfl
  have hnil : pyIntHex ⟨([] : List Char)⟩ = none := rfl
  simp only [hex_to_rgb, h3, hnil]
  cases pyIntHex ⟨((pyLstripHash s).drop 0).take 2⟩ <;>
    cases pyIntHex ⟨((pyLstripHash s).drop 2).take 2⟩ <;> rfl

/-! ### Claim theorems -/

/-- Claim C1, counterexample: in the interactive entry point
(`main.py` line 227) an empty theme key resolves to `THEMES["1"]`
(Neon Purple), not to the documented default `THEMES["5"]`
(Classic). -/
theorem C1_counterexample :
    mainResolveTheme "" "" "" = some theme_neon_purple ∧
      theme_neon_purple ≠ theme_classic := by
  constructor
  · rfl
  · decide

/-- Claim C1, amended: for unrecognized or empty keys the CLI entry
point falls back to theme `"5"` (Classic) and style `"1"` (Square),
while the interactive entry point falls back to style `"1"` (Square)
but to theme `"1"` (Neon Purple) for any non-`"C"` unrecognized theme
key; no entry point raises an error on a bad key. -/
theorem C1_amended :
    (∀ raw, THEMES.lookup (parse_choice raw) = none →
        cliResolveTheme raw = theme_classic) ∧
      (∀ raw, STYLES.lookup (parse_choice raw) = none →
        cliResolveStyle raw = style_square) ∧
      (∀ raw fi bi, pyUpper (pyStrip raw) ≠ "C" →
        THEMES.lookup (pyUpper (pyStrip raw)) = none →
        mainResolveTheme raw fi bi = some theme_neon_purple) ∧
      (∀ raw, STYLES.lookup (pyStrip raw) = none →
        mainResolveStyle raw = style_square) := by
  refine ⟨fun raw h => ?_, fun raw h => ?_, fun raw fi bi hc h => ?_,
    fun raw h => ?_⟩
  · rw [cliResolveTheme, dictGet, h]; rfl
  · rw [cliResolveStyle, dictGet, h]; rfl
  · rw [mainResolveTheme, if_neg hc, dictGet, h]; rfl
  · rw [mainResolveStyle, dictGet, h]; rfl

/-- Claim C1, witness for the amended statement at concrete keys. -/
theorem C1_amended_witness :
    cliResolveTheme "" = theme_classic ∧
      mainResolveTheme "" "" "" = some theme_neon_purple :=
  ⟨C1_amended.1 "" (by decide),
    C1_amended.2.2.1 "" "" "" (by decide) (by decide)⟩

/-- Claim C2, counterexample: the five-character hex string `"7F00F"`
does not raise — `int("F", 16)` parses the one-character final slice —
so `hex_to_rgb` returns `(127, 0, 15)`. -/
theorem C2_counterexample :
    "7F00F".length = 5 ∧ hex_to_rgb "7F00F" = some (127, 0, 15) :=
  ⟨rfl, rfl⟩

/-- Claim C2, amended: `hex_to_rgb` maps `"#7F00FF"` to
`(127, 0, 255)` and `"000000"` to `(0, 0, 0)`; an input shorter than
five characters after `'#'`-stripping always raises a conversion
error, as does an input whose two-character slices fail hexadecimal
parsing (e.g. `"XYZ123"`); but a five-character hex string is accepted
with its final slice read as a single digit. -/
theorem C2_amended :
    hex_to_rgb "#7F00FF" = some (127, 0, 255) ∧
      hex_to_rgb "000000" = some (0, 0, 0) ∧
      hex_to_rgb "XYZ123" = none ∧
      ∀ s, (pyLstripHash s).length < 5 → hex_to_rgb s = none :=
  ⟨rfl, rfl, rfl, fun _ h => hex_to_rgb_short h⟩

/-- Claim C2, witness for the amended statement: a two-character
input raises. -/
theorem C2_amended_witness : hex_to_rgb "AB" = none :=
  C2_amended.2.2.2 "AB" (by decide)

/-- Claim C4: the compositing arithmetic of `generate_styled_qr`
computes logo edge `n / 4`, an identical centering offset
`(n - n / 4) / 2` on both axes, and a white backing square 20 pixels
larger than the logo placed 10 pixels up and left of it; at `n = 400`
this gives logo edge 100, offset 150, backing top-left `(140, 140)`
and backing edge 120. -/
theorem C4_compositing :
    (∀ n : Nat, compositeGeometry n =
      { logo_size := n / 4
        pos := ((n - n / 4) / 2, (n - n / 4) / 2)
        bg_size := (n / 4 + 20, n / 4 + 20)
        bg_pos := ((((n - n / 4) / 2 : Nat) : Int) - 10,
          (((n - n / 4) / 2 : Nat) : Int) - 10) }) ∧
      compositeGeometry 400 =
        { logo_size := 100, pos := (150, 150), bg_size := (120, 120),
          bg_pos := (140, 140) } := by
  refine ⟨fun n => rfl, ?_⟩
  decide

/-- Claim C6: every recognized theme key `"1"`–`"8"` and style key
`"1"`–`"6"` resolves, in both entry points, to exactly the documented
preset record with no fallback; in particular theme `"2"` is Ocean
Blue and style `"3"` is Circle. -/
theorem C6_recognized_keys :
    THEMES.lookup "1" = some theme_neon_purple ∧
      THEMES.lookup "2" = some theme_ocean_blue ∧
      THEMES.lookup "3" = some theme_sunset ∧
      THEMES.lookup "4" = some theme_matrix ∧
      THEMES.lookup "5" = some theme_classic ∧
      THEMES.lookup "6" = some theme_pink_dream ∧
      THEMES.lookup "7" = some theme_gradient_ocean ∧
      THEMES.lookup "8" = some theme_gradient_fire ∧
      STYLES.lookup "1" = some style_square ∧
      STYLES.lookup "2" = some style_rounded ∧
      STYLES.lookup "3" = some style_circle ∧
      STYLES.lookup "4" = some style_vertical_bars ∧
      STYLES.lookup "5" = some style_horizontal_bars ∧
      STYLES.lookup "6" = some style_gapped_square ∧
      cliResolveTheme "2" = theme_ocean_blue ∧
      cliResolveStyle "3" = style_circle ∧
      mainResolveTheme "2" "" "" = some theme_ocean_blue ∧
      mainResolveStyle "3" = style_circle := by
  decide

/-- Claim C3, counterexample: when the logo path names a file that
does not exist, `generate_styled_qr` skips the guarded logo block
entirely (`if logo_path and os.path.exists(logo_path)`), so the base
image is saved but no warning is printed, contrary to the claim that a
warning is always reported. -/
theorem C3_counterexample :
    (generate_styled_qr "qr_code.png" (some "missing_logo.png")
        ⟨false, true⟩).warning = false ∧
      (generate_styled_qr "qr_code.png" (some "missing_logo.png")
        ⟨false, true⟩).saved_file = some "qr_code.png" ∧
      (generate_styled_qr "qr_code.png" (some "missing_logo.png")
        ⟨false, true⟩).logo_added = false := by
  decide

/-- Claim C3, amended: the base QR image is always saved to the output
path; a non-fatal warning is printed only when the logo path is truthy
and exists but fails to load, while a missing file is skipped silently
with no warning and no logo. -/
theorem C3_amended :
    ∀ (out : String) (p : Option String) (env : LogoEnv),
      ((pyTruthy p && env.file_exists) = false →
        generate_styled_qr out p env =
          { saved_file := some out, logo_added := false, warning := false }) ∧
      ((pyTruthy p && env.file_exists) = true → env.logo_loads = false →
        generate_styled_qr out p env =
          { saved_file := some out, logo_added := false, warning := true }) ∧
      ((pyTruthy p && env.file_exists) = true → env.logo_loads = true →
        generate_styled_qr out p env =
          { saved_file := some out, logo_added := true, warning := false }) ∧
      (generate_styled_qr out p env).saved_file = some out := by
  intro out p env
  refine ⟨fun h => ?_, fun h hl => ?_, fun h hl => ?_, ?_⟩
  · simp [generate_styled_qr, h]
  · simp [generate_styled_qr, h, hl]
  · simp [generate_styled_qr, h, hl]
  · cases hb : (pyTruthy p && env.file_exists) <;>
      cases hl : env.logo_loads <;> simp [generate_styled_qr, hb, hl]

/-- Claim C3, witness for the amended statement: an existing but
unreadable logo file produces a warning and still saves the base
image. -/
theorem C3_amended_witness :
    generate_styled_qr "out.png" (some "broken.png") ⟨true, false⟩ =
      { saved_file := some "out.png", logo_added := false, warning := true } :=
  (C3_amended "out.png" (some "broken.png") ⟨true, false⟩).2.1 (by decide) rfl

/-- Claim C5: `parse_choice` extracts the leading space-delimited
token (`"1 - Square"` becomes `"1"`), and CLI preset resolution is
total — for every input string it returns a preset stored in the
corresponding table, never failing. -/
theorem C5_parse_and_total :
    parse_choice "1 - Square" = "1" ∧
      (∀ s, cliResolveTheme s ∈ THEMES.map Prod.snd) ∧
      (∀ s, cliResolveStyle s ∈ STYLES.map Prod.snd) := by
  refine ⟨by decide, fun s => ?_, fun s => ?_⟩
  · rcases dictGet_mem_or THEMES (parse_choice s) theme_classic with h | h
    · rw [cliResolveTheme, h]; decide
    · exact h
  · rcases dictGet_mem_or STYLES (parse_choice s) style_square with h | h
    · rw [cliResolveStyle, h]; decide
    · exact h

/-- Claim C7: the interactive output filename defaults to
`"qr_code.png"` on empty input, gets `".png"` appended when the
stripped non-empty name lacks the suffix, and in every case the
resulting path ends with `".png"`. -/
theorem C7_filename :
    normalizeFilename "" = "qr_code.png" ∧
      (∀ s, pyStrip s ≠ "" → pyEndsWith (pyStrip s) ".png" = false →
        normalizeFilename s = pyStrip s ++ ".png") ∧
      (∀ s, pyEndsWith (normalizeFilename s) ".png" = true) := by
  refine ⟨by decide, fun s h1 h2 => ?_, fun s => ?_⟩
  · rw [normalizeFilename, if_neg h1, if_neg (by rw [h2]; exact Bool.false_ne_true)]
  · rw [normalizeFilename]
    by_cases h1 : pyStrip s = ""
    · rw [if_pos h1]; decide
    · rw [if_neg h1]
      by_cases h2 : pyEndsWith (pyStrip s) ".png" = true
      · rw [if_pos h2]; exact h2
      · rw [if_neg h2]
        simp only [pyEndsWith, String.data_append, List.isSuffixOf_iff_suffix]
        exact List.suffix_append _ _

/-- Claim C7, witness: a name without the suffix gets `".png"`
appended. -/
theorem C7_filename_witness :
    normalizeFilename "my_code" = pyStrip "my_code" ++ ".png" :=
  C7_filename.2.1 "my_code" (by decide) (by decide)

/-- Claim C8: an interactive run whose stripped data input is empty
returns before any rendering and writes no output file. -/
theorem C8_empty_data_aborts :
    ∀ inp : MainInputs, pyStrip inp.data = "" →
      mainRun inp = .aborted ∧ writesFile (mainRun inp) = none := by
  intro inp h
  have hr : mainRun inp = .aborted := by rw [mainRun, h]; rfl
  exact ⟨hr, by rw [hr]; rfl⟩

/-- Claim C8, witness: a whitespace-only data input aborts. -/
theorem C8_empty_data_aborts_witness :
    mainRun ⟨"   ", "1", "", "", "1", "", ""⟩ = .aborted ∧
      writesFile (mainRun ⟨"   ", "1", "", "", "1", "", ""⟩) = none :=
  C8_empty_data_aborts ⟨"   ", "1", "", "", "1", "", ""⟩ (by decide)

/-- Unfolding equation for `get_custom_colors`. -/
theorem get_custom_colors_eq (fi bi : String) :
    get_custom_colors fi bi =
      (hex_to_rgb (if pyStrip fi = "" then "#000000" else pyStrip fi)).bind
        fun f =>
          (hex_to_rgb (if pyStrip bi = "" then "#FFFFFF" else pyStrip bi)).bind
            fun b =>
              some { name := "🎨 Custom", fill := some f, back := b } := rfl

/-- Claim C9: in the interactive custom-colour path an empty
foreground input defaults to `"#000000"` (black) and an empty
background input to `"#FFFFFF"` (white); every theme the function
returns carries the name `"🎨 Custom"`, a fill triple and a back
triple. -/
theorem C9_custom_defaults :
    get_custom_colors "" "" =
        some { name := "🎨 Custom", fill := some (0, 0, 0),
               back := (255, 255, 255) } ∧
      (∀ bi t, get_custom_colors "" bi = some t → t.fill = some (0, 0, 0)) ∧
      (∀ fi t, get_custom_colors fi "" = some t → t.back = (255, 255, 255)) ∧
      (∀ fi bi t, get_custom_colors fi bi = some t →
        t.name = "🎨 Custom" ∧ t.fill ≠ none ∧ t.gradient = false) := by
  have hblack : hex_to_rgb "#000000" = some ((0 : Int), 0, 0) := rfl
  have hwhite : hex_to_rgb "#FFFFFF" = some ((255 : Int), 255, 255) := rfl
  have hif0 : (if pyStrip "" = "" then "#000000" else pyStrip "") = "#000000" := rfl
  have hif1 : (if pyStrip "" = "" then "#FFFFFF" else pyStrip "") = "#FFFFFF" := rfl
  refine ⟨rfl, fun bi t h => ?_, fun fi t h => ?_, fun fi bi t h => ?_⟩
  · rw [get_custom_colors_eq, hif0, hblack] at h
    rcases hb : hex_to_rgb (if pyStrip bi = "" then "#FFFFFF" else pyStrip bi)
      with _ | rb <;> rw [hb] at h
    · simp at h
    · simp only [Option.some_bind] at h
      cases h
      rfl
  · rw [get_custom_colors_eq] at h
    rcases hf : hex_to_rgb (if pyStrip fi = "" then "#000000" else pyStrip fi)
      with _ | rf <;> rw [hf] at h
    · simp at h
    · rw [hif1, hwhite] at h
      simp only [Option.some_bind] at h
      cases h
      rfl
  · rw [get_custom_colors_eq] at h
    rcases hf : hex_to_rgb (if pyStrip fi = "" then "#000000" else pyStrip fi)
      with _ | rf <;> rw [hf] at h
    · simp at h
    · rcases hb : hex_to_rgb (if pyStrip bi = "" then "#FFFFFF" else pyStrip bi)
        with _ | rb <;> rw [hb] at h
      · simp at h
      · simp only [Option.some_bind] at h
        cases h
        exact ⟨rfl, by simp, rfl⟩

/-- Claim C9, witness: empty foreground with a custom background
still yields the black default fill. -/
theorem C9_custom_defaults_witness :
    ({ name := "🎨 Custom", fill := some (0, 0, 0),
       back := (18, 52, 86) } : Theme).fill = some (0, 0, 0) :=
  C9_custom_defaults.2.1 "#123456"
    { name := "🎨 Custom", fill := some (0, 0, 0), back := (18, 52, 86) } rfl

/-- Claim C10: `hex_to_rgb` reads only the first six characters after
stripping the leading `'#'`: whenever those six are hexadecimal
digits, the conversion succeeds with their value, and any trailing
characters (such as a two-digit alpha component) are ignored. -/
theorem C10_first_six (s : String) (d1 d2 d3 d4 d5 d6 : Char)
    (rest : List Char) (v1 v2 v3 v4 v5 v6 : Nat)
    (hl : pyLstripHash s = [d1, d2, d3, d4, d5, d6] ++ rest)
    (h1 : hexVal? d1 = some v1) (h2 : hexVal? d2 = some v2)
    (h3 : hexVal? d3 = some v3) (h4 : hexVal? d4 = some v4)
    (h5 : hexVal? d5 = some v5) (h6 : hexVal? d6 = some v6) :
    hex_to_rgb s =
      some (((16 * v1 + v2 : Nat) : Int), ((16 * v3 + v4 : Nat) : Int),
        ((16 * v5 + v6 : Nat) : Int)) := by
  have e1 : ((pyLstripHash s).drop 0).take 2 = [d1, d2] := by rw [hl]; rfl
  have e2 : ((pyLstripHash s).drop 2).take 2 = [d3, d4] := by rw [hl]; rfl
  have e3 : ((pyLstripHash s).drop 4).take 2 = [d5, d6] := by rw [hl]; rfl
  simp only [hex_to_rgb, e1, e2, e3, pyIntHex_two h1 h2, pyIntHex_two h3 h4,
    pyIntHex_two h5 h6, Option.some_bind]

/-- Claim C10, witness: an eight-digit string with an alpha component
is accepted and its last two digits ignored. -/
theorem C10_first_six_witness : hex_to_rgb "#7F00FF99" = some (127, 0, 255) := by
  have h := C10_first_six "#7F00FF99" '7' 'F' '0' '0' 'F' 'F' ['9', '9']
    7 15 0 0 15 15 rfl rfl rfl rfl rfl rfl rfl
  simpa using h

end QrGen
